import Mathlib

/-!
Shallow embedding of `src/server.js`, the backend of the solar-analysis-app
proxy.  The embedding covers the pieces the specification's testable
properties talk about:

* the request validation `if (!lat || !lng)` of the two solar endpoints;
* the quality-tier fallback loop (`HIGH`, `MEDIUM`, `BASE`) of
  `/api/solar/building-insights` (lines 84-142) and `/api/solar/imagery`
  (lines 163-207), including the inner `try`/`catch` of each loop body;
* the geocoding endpoint `/api/geocode` (lines 38-72);
* the raster decoding endpoint `/api/process-geotiff` (lines 283-353):
  RGB channel extraction, single-band stride sampling, and the
  sentinel-filtered statistics.

Network effects are modelled by passing the upstream's per-tier answer as an
explicit environment `env : Tier → TierResult`; the list of tiers a run
actually requested is returned alongside the endpoint's response so that
"no request was issued for tier t" is a statement about the output.
-/

/-- JS truthiness test used by `if (!lat || !lng)` (server.js lines 79 and
158) on an optional numeric body field: the guard fires when the field is
absent or is the number 0. -/
def jsFalsy (x : Option ℚ) : Bool :=
  match x with
  | none => true
  | some v => v == 0

/-- `startsWithChars pat s` is true when `pat` is an initial segment of `s`
(character-by-character comparison). -/
def startsWithChars : List Char → List Char → Bool
  | [], _ => true
  | _ :: _, [] => false
  | a :: as, b :: bs => a == b && startsWithChars as bs

/-- `containsChars s pat` is true when `pat` occurs contiguously inside `s`;
this is JS `String.prototype.includes` on the underlying characters. -/
def containsChars : List Char → List Char → Bool
  | [], pat => startsWithChars pat []
  | a :: rest, pat => startsWithChars pat (a :: rest) || containsChars rest pat

/-- JS `s.includes(pat)` (used by `data.error?.message?.includes('not found')`,
server.js lines 128 and 189). -/
def strIncludes (s pat : String) : Bool :=
  containsChars s.data pat.data

/-- The three upstream quality levels, in the order the loops try them
(`const qualityLevels = ['HIGH', 'MEDIUM', 'BASE']`, lines 84 and 163). -/
inductive Tier where
  | HIGH
  | MEDIUM
  | BASE
deriving DecidableEq

/-- What the upstream returns for one tier's request: either the response
body fails to parse as JSON (`JSON.parse`/`response.json()` throws), or a
parsed response with its HTTP `ok` flag, numeric status, the optional
`data.error?.message` string, and an opaque payload standing for the parsed
JSON body. -/
inductive TierResult where
  | parseError (rawBody : String)
  | response (ok : Bool) (status : Nat) (errMsg : Option String) (payload : String)
deriving DecidableEq

/-- `data.error?.message?.includes('not found')`: a missing error message is
`undefined`, hence falsy. -/
def notFoundError (errMsg : Option String) : Bool :=
  match errMsg with
  | none => false
  | some m => strIncludes m "not found"

/-- `data.error?.message || response.status` (line 132): a missing or empty
message is falsy in JS, so the numeric status is interpolated instead. -/
def msgOrStatus (errMsg : Option String) (status : Nat) : String :=
  match errMsg with
  | none => toString status
  | some m => if m = "" then toString status else m

/-- Outcome of one iteration's body in the building-insights loop:
`return res.json(...)` (`ret`), `continue` (`next`), or a thrown
exception carrying its message (`thrown`). -/
inductive StepOut where
  | ret (payload : String)
  | next
  | thrown (msg : String)
deriving DecidableEq

/-- The `try` block of one building-insights iteration (lines 87-133):
a JSON parse failure throws `Invalid JSON response: <first 100 chars>`;
`response.ok` returns the payload; a "not found" error at a non-BASE tier
continues; anything else throws `Solar API error: <message or status>`. -/
def insightsTry (t : Tier) (r : TierResult) : StepOut :=
  match r with
  | .parseError raw => .thrown ("Invalid JSON response: " ++ raw.take 100)
  | .response ok status errMsg payload =>
    if ok then .ret payload
    else if notFoundError errMsg && !(t == Tier.BASE) then .next
    else .thrown ("Solar API error: " ++ msgOrStatus errMsg status)

/-- The `catch` of one building-insights iteration (lines 134-139): a thrown
error is rethrown when the tier is BASE and otherwise swallowed by
`continue`. -/
def insightsCatch (t : Tier) (s : StepOut) : StepOut :=
  match s with
  | .thrown m => if t == Tier.BASE then .thrown m else .next
  | s => s

/-- The building-insights fallback loop (lines 86-142) over a list of tiers,
driven by the upstream environment.  Returns the list of tiers actually
requested together with either the winning `(tier, payload)` or the message
of the exception that escaped the loop; an exhausted list reaches the
`throw new Error('No solar data available for this location')` of
line 142. -/
def insightsLoop (env : Tier → TierResult) : List Tier → List Tier × Except String (Tier × String)
  | [] => ([], Except.error "No solar data available for this location")
  | t :: rest =>
    match insightsCatch t (insightsTry t (env t)) with
    | .ret p => ([t], Except.ok (t, p))
    | .thrown m => ([t], Except.error m)
    | .next =>
      let r := insightsLoop env rest
      (t :: r.1, r.2)

/-- The per-tier quality descriptor of lines 118-120. -/
def qualityInfo : Tier → String
  | .HIGH => "0.1m/pixel aerial"
  | .MEDIUM => "0.25m/pixel aerial"
  | .BASE => "0.25m/pixel satellite (experimental)"

/-- Response of `/api/solar/building-insights`: the success body of
line 122, the 500 failure body of line 146 carrying the escaped error's
message, or the 400 validation rejection of line 80. -/
inductive InsightsResult where
  | success (quality : Tier) (info : String) (payload : String)
  | failure (error : String)
  | badRequest (error : String)
deriving DecidableEq

/-- The `/api/solar/building-insights` handler (lines 75-151), paired with
the list of tiers it issued upstream requests for. -/
def buildingInsights (lat lng : Option ℚ) (env : Tier → TierResult) :
    InsightsResult × List Tier :=
  if jsFalsy lat || jsFalsy lng then
    (.badRequest "Latitude and longitude are required", [])
  else
    match insightsLoop env [Tier.HIGH, Tier.MEDIUM, Tier.BASE] with
    | (ts, Except.ok (t, p)) => (.success t (qualityInfo t) p, ts)
    | (ts, Except.error m) => (.failure m, ts)

/-- Outcome of one iteration's body in the imagery loop: success return,
the `return res.json({ success: false, data: null })` sentinel return,
`continue`, or a thrown exception. -/
inductive IStepOut where
  | ret (payload : String)
  | retNoData
  | next
  | thrown (msg : String)
deriving DecidableEq

/-- The `try` block of one imagery iteration (lines 166-197): a body-parse
failure throws; `response.ok` returns the payload; a "not found" error at a
non-BASE tier continues; any other error returns the no-data sentinel at
BASE and continues otherwise. -/
def imageryTry (t : Tier) (r : TierResult) : IStepOut :=
  match r with
  | .parseError raw => .thrown raw
  | .response ok _status errMsg payload =>
    if ok then .ret payload
    else if notFoundError errMsg && !(t == Tier.BASE) then .next
    else if t == Tier.BASE then .retNoData
    else .next

/-- The `catch` of one imagery iteration (lines 198-204): every thrown error
is swallowed, returning the no-data sentinel at BASE and continuing
otherwise.  Nothing is rethrown. -/
def imageryCatch (t : Tier) (s : IStepOut) : IStepOut :=
  match s with
  | .thrown _ => if t == Tier.BASE then .retNoData else .next
  | s => s

/-- The imagery fallback loop (lines 165-207): `Except.ok (some (t, p))` is
a successful tier, `Except.ok none` the no-data sentinel (from a BASE
failure or, at line 207, loop exhaustion), and `Except.error` an exception
escaping the loop (shown below never to happen). -/
def imageryLoopRun (env : Tier → TierResult) : List Tier → List Tier × Except String (Option (Tier × String))
  | [] => ([], Except.ok none)
  | t :: rest =>
    match imageryCatch t (imageryTry t (env t)) with
    | .ret p => ([t], Except.ok (some (t, p)))
    | .retNoData => ([t], Except.ok none)
    | .thrown m => ([t], Except.error m)
    | .next =>
      let r := imageryLoopRun env rest
      (t :: r.1, r.2)

/-- Response of `/api/solar/imagery`: the success body of line 184, the
`{ success: false, data: null }` no-data sentinel, the 500 body of
line 211 (reached only by an exception escaping the loop), or the 400
validation rejection of line 159. -/
inductive ImageryResult where
  | success (quality : Tier) (payload : String)
  | noData
  | serverError (error : String)
  | badRequest (error : String)
deriving DecidableEq

/-- The `/api/solar/imagery` handler (lines 154-216), paired with the list
of tiers it issued upstream requests for. -/
def imagery (lat lng : Option ℚ) (env : Tier → TierResult) :
    ImageryResult × List Tier :=
  if jsFalsy lat || jsFalsy lng then
    (.badRequest "Latitude and longitude are required", [])
  else
    match imageryLoopRun env [Tier.HIGH, Tier.MEDIUM, Tier.BASE] with
    | (ts, Except.ok (some (t, p))) => (.success t p, ts)
    | (ts, Except.ok none) => (.noData, ts)
    | (ts, Except.error m) => (.serverError m, ts)

/-- One entry of the geocoding provider's `results` array. -/
structure GeoLocation where
  lat : ℚ
  lng : ℚ
  formattedAddress : String
deriving DecidableEq

/-- The geocoding provider's parsed JSON reply: its `status` string and
`results` array. -/
structure GeoResponse where
  status : String
  results : List GeoLocation
deriving DecidableEq

/-- Response of `/api/geocode`: the success body of line 53 or a failure
body with its HTTP status code (400 for validation and upstream failures). -/
inductive GeocodeResult where
  | success (lat lng : ℚ) (formattedAddress : String)
  | failure (error : String) (httpStatus : Nat)
deriving DecidableEq

/-- The `/api/geocode` handler (lines 38-72) applied to the provider's
parsed reply.  `address = none` or `some ""` is the falsy `!address` case. -/
def geocode (address : Option String) (resp : GeoResponse) : GeocodeResult :=
  match address with
  | none => .failure "Address is required" 400
  | some a =>
    if a = "" then .failure "Address is required" 400
    else
      match resp.results with
      | r :: _ =>
        if resp.status = "OK" then .success r.lat r.lng r.formattedAddress
        else .failure ("Geocoding failed: " ++ resp.status) 400
      | [] => .failure ("Geocoding failed: " ++ resp.status) 400

/-- Number of iterations of `for (let i = 0; i < len; i += step)`:
`ceil(len / step)` for a positive step. -/
def strideCount (len step : Nat) : Nat :=
  (len + step - 1) / step

/-- The index sequence `0, step, 2*step, ...` visited by that loop. -/
def strideIndices (len step : Nat) : List Nat :=
  List.range' 0 (strideCount len step) step

/-- One RGB output channel of lines 298-302: for each visited index `i` the
loop pushes `data[i + offset]`; an out-of-range JS Buffer access yields
`undefined`, modelled as `none`. -/
def rgbChannel (buf : List Nat) (channels offset : Nat) : List (Option Nat) :=
  (strideIndices buf.length channels).map fun i => buf[i + offset]?

/-- The single-band value extraction of lines 321-335: for the `tiff`
source format every `channels`-th byte is sampled, otherwise every byte is
taken. -/
def singleBandValues (buf : List Nat) (channels : Nat) (format : String) : List Nat :=
  if format = "tiff" then
    (strideIndices buf.length channels).map fun i => buf.getD i 0
  else
    buf

/-- The sentinel filter of line 338: values 0 and 255 are dropped before
statistics (every buffer byte is a number, so the `isNaN` test never
fires). -/
def validValues (values : List Nat) : List Nat :=
  values.filter fun v => !(v == 255) && !(v == 0)

/-- `Math.min(...validValues)` with the empty-set default 0 (line 339). -/
def statsMin (values : List Nat) : Nat :=
  match validValues values with
  | [] => 0
  | v :: vs => vs.foldl Nat.min v

/-- `Math.max(...validValues)` with the empty-set default 255 (line 340). -/
def statsMax (values : List Nat) : Nat :=
  match validValues values with
  | [] => 255
  | v :: vs => vs.foldl Nat.max v

/-- `validValues.reduce((a, b) => a + b, 0) / validValues.length` with the
empty-set default 0 (line 341). -/
def statsMean (values : List Nat) : ℚ :=
  let vv := validValues values
  if vv.length = 0 then 0
  else ((vv.foldl (· + ·) 0 : Nat) : ℚ) / (vv.length : ℚ)

/-- Response of `/api/process-geotiff` after a successful tile fetch and
decode: the RGB body of line 304 or the single-band body of line 345. -/
inductive GeoResult where
  | rgb (width height : Nat) (red green blue : List (Option Nat))
  | singleBand (layer : String) (width height : Nat)
      (min max : Nat) (mean : ℚ) (values : List Nat)
deriving DecidableEq

/-- The decode stage of `/api/process-geotiff` (lines 283-353), applied to
the already-fetched raw pixel buffer `buf` with its decoded channel count,
dimensions, and source format tag.  Only `layer === 'rgb'` with at least
three channels takes the RGB branch; every other combination — including an
RGB request on a raster with fewer than three channels — falls through to
the single-band extraction. -/
def processGeotiff (layer : String) (buf : List Nat) (channels width height : Nat)
    (format : String) : GeoResult :=
  if layer = "rgb" ∧ 3 ≤ channels then
    .rgb width height (rgbChannel buf channels 0) (rgbChannel buf channels 1)
      (rgbChannel buf channels 2)
  else
    let values := singleBandValues buf channels format
    .singleBand layer width height (statsMin values) (statsMax values)
      (statsMean values) values

/-! ## Helper lemmas -/

/-- The requested-tier list of `/api/solar/building-insights` is the one the
fallback loop produced, whichever way the loop ended. -/
lemma buildingInsights_snd (lat lng : Option ℚ) (env : Tier → TierResult)
    (h1 : jsFalsy lat = false) (h2 : jsFalsy lng = false) :
    (buildingInsights lat lng env).2
      = (insightsLoop env [Tier.HIGH, Tier.MEDIUM, Tier.BASE]).1 := by
  unfold buildingInsights
  rw [h1, h2]
  simp only [Bool.or_self, Bool.false_eq_true, if_false]
  rcases hr : insightsLoop env [Tier.HIGH, Tier.MEDIUM, Tier.BASE] with ⟨ts, res⟩
  cases res with
  | ok tp => cases tp with | mk t p => simp
  | error m => simp

/-- The requested-tier list of `/api/solar/imagery` is the one the fallback
loop produced, whichever way the loop ended. -/
lemma imagery_snd (lat lng : Option ℚ) (env : Tier → TierResult)
    (h1 : jsFalsy lat = false) (h2 : jsFalsy lng = false) :
    (imagery lat lng env).2
      = (imageryLoopRun env [Tier.HIGH, Tier.MEDIUM, Tier.BASE]).1 := by
  unfold imagery
  rw [h1, h2]
  simp only [Bool.or_self, Bool.false_eq_true, if_false]
  rcases hr : imageryLoopRun env [Tier.HIGH, Tier.MEDIUM, Tier.BASE] with ⟨ts, res⟩
  rcases res with tp | tp
  · simp
  · rcases tp with _ | ⟨t, p⟩ <;> simp

/-- Whatever a loop iteration decides, the tier it looked at heads the list
of requested tiers. -/
lemma insightsLoop_head (env : Tier → TierResult) (t : Tier) (rest : List Tier) :
    ∃ tail, (insightsLoop env (t :: rest)).1 = t :: tail := by
  unfold insightsLoop
  rcases h : insightsCatch t (insightsTry t (env t)) with p | _ | m
  · exact ⟨[], by simp [h]⟩
  · exact ⟨(insightsLoop env rest).1, by simp [h]⟩
  · exact ⟨[], by simp [h]⟩

/-- Imagery analogue of `insightsLoop_head`. -/
lemma imageryLoopRun_head (env : Tier → TierResult) (t : Tier) (rest : List Tier) :
    ∃ tail, (imageryLoopRun env (t :: rest)).1 = t :: tail := by
  unfold imageryLoopRun
  rcases h : imageryCatch t (imageryTry t (env t)) with p | _ | _ | m
  · exact ⟨[], by simp [h]⟩
  · exact ⟨[], by simp [h]⟩
  · exact ⟨(imageryLoopRun env rest).1, by simp [h]⟩
  · exact ⟨[], by simp [h]⟩

/-- The imagery `catch` never rethrows: every branch of lines 198-204 ends
in a `return` or a `continue`. -/
lemma imageryCatch_ne_thrown (t : Tier) (s : IStepOut) (m : String) :
    imageryCatch t s ≠ IStepOut.thrown m := by
  cases s with
  | ret p => simp [imageryCatch]
  | retNoData => simp [imageryCatch]
  | next => simp [imageryCatch]
  | thrown m2 =>
    simp only [imageryCatch]
    split <;> simp

/-- No exception ever escapes the imagery fallback loop. -/
lemma imageryLoopRun_ok (env : Tier → TierResult) (ts : List Tier) :
    ∃ out, (imageryLoopRun env ts).2 = Except.ok out := by
  induction ts with
  | nil => exact ⟨none, rfl⟩
  | cons t rest ih =>
    unfold imageryLoopRun
    rcases h : imageryCatch t (imageryTry t (env t)) with p | _ | _ | m
    · exact ⟨some (t, p), by simp [h]⟩
    · exact ⟨none, by simp [h]⟩
    · obtain ⟨out, hout⟩ := ih
      exact ⟨out, by simp [h, hout]⟩
    · exact absurd h (imageryCatch_ne_thrown t _ m)

/-- `Nat.min` picks one of its arguments. -/
lemma min_choice_nat (v a : Nat) : Nat.min v a = v ∨ Nat.min v a = a := by
  have h : Nat.min v a = min v a := rfl
  rw [h]; omega

/-- `Nat.min` is below both arguments. -/
lemma min_le_both (v a : Nat) : Nat.min v a ≤ v ∧ Nat.min v a ≤ a := by
  have h : Nat.min v a = min v a := rfl
  rw [h]; omega

/-- `Nat.max` picks one of its arguments. -/
lemma max_choice_nat (v a : Nat) : Nat.max v a = v ∨ Nat.max v a = a := by
  have h : Nat.max v a = max v a := rfl
  rw [h]; omega

/-- `Nat.max` dominates both arguments. -/
lemma max_ge_both (v a : Nat) : v ≤ Nat.max v a ∧ a ≤ Nat.max v a := by
  have h : Nat.max v a = max v a := rfl
  rw [h]; omega

/-- A fold of `Nat.min` lands on its seed or one of the folded elements. -/
lemma foldl_min_mem (vs : List Nat) : ∀ v : Nat, vs.foldl Nat.min v ∈ v :: vs := by
  induction vs with
  | nil => intro v; simp
  | cons a vs ih =>
    intro v
    simp only [List.foldl_cons]
    rcases List.mem_cons.mp (ih (Nat.min v a)) with h1 | h1
    · rw [h1]
      rcases min_choice_nat v a with h2 | h2 <;> rw [h2] <;> simp
    · exact List.mem_cons_of_mem _ (List.mem_cons_of_mem _ h1)

/-- A fold of `Nat.min` is below its seed and every folded element. -/
lemma foldl_min_le (vs : List Nat) : ∀ v x : Nat, x ∈ v :: vs → vs.foldl Nat.min v ≤ x := by
  induction vs with
  | nil =>
    intro v x hx
    simp only [List.foldl_nil]
    simp only [List.mem_singleton] at hx
    omega
  | cons a vs ih =>
    intro v x hx
    simp only [List.foldl_cons]
    have hseed : vs.foldl Nat.min (Nat.min v a) ≤ Nat.min v a :=
      ih (Nat.min v a) (Nat.min v a) (List.mem_cons_self _ _)
    have hmin := min_le_both v a
    rcases List.mem_cons.mp hx with h1 | h1
    · subst h1; omega
    · rcases List.mem_cons.mp h1 with h2 | h2
      · subst h2; omega
      · exact ih (Nat.min v a) x (List.mem_cons_of_mem _ h2)

/-- A fold of `Nat.max` lands on its seed or one of the folded elements. -/
lemma foldl_max_mem (vs : List Nat) : ∀ v : Nat, vs.foldl Nat.max v ∈ v :: vs := by
  induction vs with
  | nil => intro v; simp
  | cons a vs ih =>
    intro v
    simp only [List.foldl_cons]
    rcases List.mem_cons.mp (ih (Nat.max v a)) with h1 | h1
    · rw [h1]
      rcases max_choice_nat v a with h2 | h2 <;> rw [h2] <;> simp
    · exact List.mem_cons_of_mem _ (List.mem_cons_of_mem _ h1)

/-- A fold of `Nat.max` dominates its seed and every folded element. -/
lemma foldl_max_ge (vs : List Nat) : ∀ v x : Nat, x ∈ v :: vs → x ≤ vs.foldl Nat.max v := by
  induction vs with
  | nil =>
    intro v x hx
    simp only [List.foldl_nil]
    simp only [List.mem_singleton] at hx
    omega
  | cons a vs ih =>
    intro v x hx
    simp only [List.foldl_cons]
    have hseed : Nat.max v a ≤ vs.foldl Nat.max (Nat.max v a) :=
      ih (Nat.max v a) (Nat.max v a) (List.mem_cons_self _ _)
    have hmax := max_ge_both v a
    rcases List.mem_cons.mp hx with h1 | h1
    · subst h1; omega
    · rcases List.mem_cons.mp h1 with h2 | h2
      · subst h2; omega
      · exact ih (Nat.max v a) x (List.mem_cons_of_mem _ h2)

/-- The stride loop over a buffer of exactly `N * c` bytes runs `N` times. -/
lemma strideCount_mul (N c : Nat) (hc : 0 < c) : strideCount (N * c) c = N := by
  unfold strideCount
  have h1 : N * c + c - 1 = c - 1 + c * N := by rw [Nat.mul_comm c N]; omega
  rw [h1, Nat.add_mul_div_left _ _ hc, Nat.div_eq_of_lt (by omega)]
  omega

/-- The stride index list has one entry per loop iteration. -/
lemma strideIndices_length (len c : Nat) :
    (strideIndices len c).length = strideCount len c := by
  simp [strideIndices]

/-- Entry `j` of the stride index list is the byte offset `c * j`. -/
lemma strideIndices_getElem (len c j : Nat) (hj : j < strideCount len c) :
    (strideIndices len c)[j]? = some (c * j) := by
  unfold strideIndices
  rw [List.getElem?_range' 0 c hj]
  simp

/-- An RGB output channel over a buffer of `N * c` bytes has one entry per
pixel. -/
lemma rgbChannel_length (buf : List Nat) (c off N : Nat) (hc : 0 < c)
    (hlen : buf.length = N * c) : (rgbChannel buf c off).length = N := by
  simp [rgbChannel, strideIndices, hlen, strideCount_mul N c hc]

/-- Entry `j` of an RGB output channel is the (defined) buffer byte at
offset `j * c + off`. -/
lemma rgbChannel_getElem (buf : List Nat) (c off N j : Nat) (hc : 0 < c)
    (hlen : buf.length = N * c) (hoff : off < c) (hj : j < N) :
    (rgbChannel buf c off)[j]? = some (some (buf.getD (j * c + off) 0)) := by
  have hcount : strideCount buf.length c = N := by
    rw [hlen]; exact strideCount_mul N c hc
  have hidx : (strideIndices buf.length c)[j]? = some (c * j) :=
    strideIndices_getElem buf.length c j (by omega)
  have hmulsucc : c * (j + 1) = c * j + c := Nat.mul_succ c j
  have hmono : c * (j + 1) ≤ c * N := Nat.mul_le_mul_left c (by omega)
  have hrange : c * j + off < buf.length := by
    rw [hlen, Nat.mul_comm N c]
    omega
  unfold rgbChannel
  rw [List.getElem?_map, hidx]
  have hsome : buf[c * j + off]? = some (buf.getD (c * j + off) 0) := by
    rw [List.getElem?_eq_getElem hrange]
    simp [List.getD_eq_getElem?_getD, List.getElem?_eq_getElem hrange]
  simp only [Option.map_some']
  rw [Nat.mul_comm j c, hsome]

/-- A list of characters starts with itself. -/
lemma startsWithChars_refl (l : List Char) : startsWithChars l l = true := by
  induction l with
  | nil => rfl
  | cons a as ih => simp [startsWithChars, ih]

/-- A character list contains its own suffix. -/
lemma containsChars_append (pre pat : List Char) :
    containsChars (pre ++ pat) pat = true := by
  induction pre with
  | nil =>
    cases pat with
    | nil => rfl
    | cons a rest => simp [containsChars, startsWithChars_refl]
  | cons a pre ih => simp [containsChars, ih]

/-- JS `includes`: a string contains its own suffix. -/
lemma strIncludes_append (s t : String) : strIncludes (s ++ t) t = true := by
  simp [strIncludes, String.data_append, containsChars_append]

/-! ## Claims -/

/-- Claim C10: for latitude = 0 or longitude = 0 (valid real-world
coordinates) both the building-insights and the imagery endpoint answer the
400 validation error "Latitude and longitude are required" and issue no
upstream request, because `if (!lat || !lng)` treats the number 0 as
missing. -/
theorem zero_coordinate_rejected (lat lng : Option ℚ) (env envI : Tier → TierResult) :
    buildingInsights (some 0) lng env
      = (.badRequest "Latitude and longitude are required", []) ∧
    imagery (some 0) lng envI
      = (.badRequest "Latitude and longitude are required", []) ∧
    buildingInsights lat (some 0) env
      = (.badRequest "Latitude and longitude are required", []) ∧
    imagery lat (some 0) envI
      = (.badRequest "Latitude and longitude are required", []) := by
  refine ⟨?_, ?_, ?_, ?_⟩ <;> simp [buildingInsights, imagery, jsFalsy]

/-- Claim C4: whenever the HIGH tier's upstream response succeeds, both
tiered endpoints return tier HIGH with that response's payload and request
no other tier. -/
theorem high_success_first_wins (lat lng : Option ℚ) (env : Tier → TierResult)
    (h1 : jsFalsy lat = false) (h2 : jsFalsy lng = false)
    (st : Nat) (e : Option String) (p : String)
    (hH : env Tier.HIGH = TierResult.response true st e p) :
    buildingInsights lat lng env
      = (.success Tier.HIGH "0.1m/pixel aerial" p, [Tier.HIGH]) ∧
    imagery lat lng env = (.success Tier.HIGH p, [Tier.HIGH]) := by
  have sI : insightsCatch Tier.HIGH (insightsTry Tier.HIGH (env Tier.HIGH))
      = StepOut.ret p := by
    rw [hH]; rfl
  have hloop : insightsLoop env [Tier.HIGH, Tier.MEDIUM, Tier.BASE]
      = ([Tier.HIGH], Except.ok (Tier.HIGH, p)) := by
    simp [insightsLoop, sI]
  have sImg : imageryCatch Tier.HIGH (imageryTry Tier.HIGH (env Tier.HIGH))
      = IStepOut.ret p := by
    rw [hH]; rfl
  have hloopI : imageryLoopRun env [Tier.HIGH, Tier.MEDIUM, Tier.BASE]
      = ([Tier.HIGH], Except.ok (some (Tier.HIGH, p))) := by
    simp [imageryLoopRun, sImg]
  constructor
  · simp [buildingInsights, h1, h2, hloop, qualityInfo]
  · simp [imagery, h1, h2, hloopI]

/-- Witness for `high_success_first_wins` at a concrete coordinate and
upstream environment. -/
theorem high_success_first_wins_witness :
    buildingInsights (some 3) (some 101)
        (fun _ => TierResult.response true 200 none "hiPayload")
      = (.success Tier.HIGH "0.1m/pixel aerial" "hiPayload", [Tier.HIGH]) ∧
    imagery (some 3) (some 101)
        (fun _ => TierResult.response true 200 none "hiPayload")
      = (.success Tier.HIGH "hiPayload", [Tier.HIGH]) :=
  high_success_first_wins (some 3) (some 101) _ (by decide) (by decide)
    200 none "hiPayload" rfl

/-- Claim C3: for any valid coordinates and any combination of per-tier
upstream outcomes the imagery endpoint never surfaces an error: its result
is a success payload with the winning tier or the no-data sentinel (the
code's `{success:false, data:null}` response). -/
theorem imagery_never_raises (lat lng : Option ℚ) (env : Tier → TierResult)
    (h1 : jsFalsy lat = false) (h2 : jsFalsy lng = false) :
    (∃ t p, (imagery lat lng env).1 = ImageryResult.success t p) ∨
    (imagery lat lng env).1 = ImageryResult.noData := by
  obtain ⟨out, hout⟩ := imageryLoopRun_ok env [Tier.HIGH, Tier.MEDIUM, Tier.BASE]
  rcases hr : imageryLoopRun env [Tier.HIGH, Tier.MEDIUM, Tier.BASE] with ⟨ts, res⟩
  rw [hr] at hout
  simp only at hout
  subst hout
  cases out with
  | none =>
    right
    simp [imagery, h1, h2, hr]
  | some tp =>
    obtain ⟨t, p⟩ := tp
    left
    exact ⟨t, p, by simp [imagery, h1, h2, hr]⟩

/-- Witness for `imagery_never_raises`: every tier's response body fails to
parse, yet the endpoint answers (with the no-data sentinel), not an
error. -/
theorem imagery_never_raises_witness :
    (∃ t p, (imagery (some 3) (some 101)
        (fun _ => TierResult.parseError "<html>")).1 = ImageryResult.success t p) ∨
    (imagery (some 3) (some 101)
        (fun _ => TierResult.parseError "<html>")).1 = ImageryResult.noData :=
  imagery_never_raises (some 3) (some 101) _ (by decide) (by decide)

/-- Claim C9: a non-empty address whose provider reply has a non-OK status
or zero results makes `/api/geocode` fail with a message carrying the
provider's status string, and never yields a coordinate. -/
theorem geocode_zero_results_upstream_error (address : String) (resp : GeoResponse)
    (ha : address ≠ "")
    (hfail : resp.status ≠ "OK" ∨ resp.results = []) :
    geocode (some address) resp
      = .failure ("Geocoding failed: " ++ resp.status) 400 ∧
    strIncludes ("Geocoding failed: " ++ resp.status) resp.status = true ∧
    ∀ la ln fa, geocode (some address) resp ≠ .success la ln fa := by
  have hmain : geocode (some address) resp
      = .failure ("Geocoding failed: " ++ resp.status) 400 := by
    rcases hres : resp.results with _ | ⟨r, rs⟩
    · simp [geocode, ha, hres]
    · rcases hfail with hst | hnil
      · simp [geocode, ha, hres, hst]
      · rw [hnil] at hres
        exact List.noConfusion hres
  refine ⟨hmain, strIncludes_append "Geocoding failed: " resp.status, ?_⟩
  intro la ln fa h
  rw [hmain] at h
  exact GeocodeResult.noConfusion h

/-- Witness for `geocode_zero_results_upstream_error` on a concrete
zero-result provider reply. -/
theorem geocode_zero_results_witness :
    geocode (some "10 Main Street") ⟨"ZERO_RESULTS", []⟩
      = GeocodeResult.failure "Geocoding failed: ZERO_RESULTS" 400 := by
  have h := (geocode_zero_results_upstream_error "10 Main Street"
    ⟨"ZERO_RESULTS", []⟩ (by decide) (Or.inr rfl)).1
  simpa using h

/-- One unfolding step of the building-insights loop. -/
lemma insightsLoop_cons (env : Tier → TierResult) (t : Tier) (rest : List Tier) :
    insightsLoop env (t :: rest)
      = match insightsCatch t (insightsTry t (env t)) with
        | .ret p => ([t], Except.ok (t, p))
        | .thrown m => ([t], Except.error m)
        | .next => (t :: (insightsLoop env rest).1, (insightsLoop env rest).2) := rfl

/-- A tier whose iteration ends in `continue` prepends itself and defers to
the remaining tiers. -/
lemma insightsLoop_cons_next (env : Tier → TierResult) (t : Tier) (rest : List Tier)
    (h : insightsCatch t (insightsTry t (env t)) = StepOut.next) :
    insightsLoop env (t :: rest)
      = (t :: (insightsLoop env rest).1, (insightsLoop env rest).2) := by
  rw [insightsLoop_cons, h]

/-- A tier whose iteration rethrows terminates the loop with that error. -/
lemma insightsLoop_cons_thrown (env : Tier → TierResult) (t : Tier) (rest : List Tier)
    (m : String) (h : insightsCatch t (insightsTry t (env t)) = StepOut.thrown m) :
    insightsLoop env (t :: rest) = ([t], Except.error m) := by
  rw [insightsLoop_cons, h]

/-- One unfolding step of the imagery loop. -/
lemma imageryLoopRun_cons (env : Tier → TierResult) (t : Tier) (rest : List Tier) :
    imageryLoopRun env (t :: rest)
      = match imageryCatch t (imageryTry t (env t)) with
        | .ret p => ([t], Except.ok (some (t, p)))
        | .retNoData => ([t], Except.ok none)
        | .thrown m => ([t], Except.error m)
        | .next => (t :: (imageryLoopRun env rest).1, (imageryLoopRun env rest).2) := rfl

/-- Imagery analogue of `insightsLoop_cons_next`. -/
lemma imageryLoopRun_cons_next (env : Tier → TierResult) (t : Tier) (rest : List Tier)
    (h : imageryCatch t (imageryTry t (env t)) = IStepOut.next) :
    imageryLoopRun env (t :: rest)
      = (t :: (imageryLoopRun env rest).1, (imageryLoopRun env rest).2) := by
  rw [imageryLoopRun_cons, h]

/-- Claim C1, counterexample: the HIGH tier fails with a quota error (no
"not found" in the message), yet the endpoint does not terminate with that
error — the inner catch of lines 134-139 swallows it, a MEDIUM request is
issued, and MEDIUM's success is returned. -/
theorem insights_quota_error_tries_medium_cex :
    buildingInsights (some 3) (some 101)
      (fun t => match t with
        | Tier.HIGH => TierResult.response false 429 (some "Quota exceeded") ""
        | Tier.MEDIUM => TierResult.response true 200 none "mediumPayload"
        | Tier.BASE => TierResult.response true 200 none "basePayload")
      = (.success Tier.MEDIUM "0.25m/pixel aerial" "mediumPayload",
         [Tier.HIGH, Tier.MEDIUM]) := by
  decide

/-- Claim C1 as amended: a HIGH-tier failure whose message does not say
"not found" is NOT terminal — both endpoints swallow it and issue a MEDIUM
request next (an error of this kind terminates the building-insights fetch
only once it occurs at the BASE tier). -/
theorem insights_terminal_error_not_terminal (lat lng : Option ℚ)
    (env : Tier → TierResult)
    (h1 : jsFalsy lat = false) (h2 : jsFalsy lng = false)
    (st : Nat) (m p : String)
    (hH : env Tier.HIGH = TierResult.response false st (some m) p)
    (hnf : strIncludes m "not found" = false) :
    (∃ rest, (buildingInsights lat lng env).2 = Tier.HIGH :: Tier.MEDIUM :: rest) ∧
    (∃ rest, (imagery lat lng env).2 = Tier.HIGH :: Tier.MEDIUM :: rest) := by
  have sH : insightsCatch Tier.HIGH (insightsTry Tier.HIGH (env Tier.HIGH))
      = StepOut.next := by
    rw [hH]; simp [insightsTry, notFoundError, hnf, insightsCatch]
  have sHI : imageryCatch Tier.HIGH (imageryTry Tier.HIGH (env Tier.HIGH))
      = IStepOut.next := by
    rw [hH]; simp [imageryTry, notFoundError, hnf, imageryCatch]
  constructor
  · obtain ⟨tail, htail⟩ := insightsLoop_head env Tier.MEDIUM [Tier.BASE]
    refine ⟨tail, ?_⟩
    rw [buildingInsights_snd lat lng env h1 h2,
        insightsLoop_cons_next env Tier.HIGH [Tier.MEDIUM, Tier.BASE] sH]
    simp [htail]
  · obtain ⟨tail, htail⟩ := imageryLoopRun_head env Tier.MEDIUM [Tier.BASE]
    refine ⟨tail, ?_⟩
    rw [imagery_snd lat lng env h1 h2,
        imageryLoopRun_cons_next env Tier.HIGH [Tier.MEDIUM, Tier.BASE] sHI]
    simp [htail]

/-- Witness for `insights_terminal_error_not_terminal` at a concrete quota
failure. -/
theorem insights_terminal_error_not_terminal_witness :
    (∃ rest, (buildingInsights (some 3) (some 101)
      (fun t => match t with
        | Tier.HIGH => TierResult.response false 429 (some "Quota limit reached") ""
        | _ => TierResult.response true 200 none "x")).2
      = Tier.HIGH :: Tier.MEDIUM :: rest) ∧
    (∃ rest, (imagery (some 3) (some 101)
      (fun t => match t with
        | Tier.HIGH => TierResult.response false 429 (some "Quota limit reached") ""
        | _ => TierResult.response true 200 none "x")).2
      = Tier.HIGH :: Tier.MEDIUM :: rest) :=
  insights_terminal_error_not_terminal (some 3) (some 101) _
    (by decide) (by decide) 429 "Quota limit reached" "" rfl (by decide)

/-- Claim C2, counterexample: with all three tiers answering a "not found"
failure, the endpoint's failure message is the `Solar API error: ...` text
built from BASE's upstream message, not
"No solar data available for this location". -/
theorem insights_all_not_found_message_cex :
    buildingInsights (some 3) (some 101)
      (fun _ => TierResult.response false 404
        (some "Requested entity was not found.") "")
      = (.failure "Solar API error: Requested entity was not found.",
         [Tier.HIGH, Tier.MEDIUM, Tier.BASE]) ∧
    "Solar API error: Requested entity was not found."
      ≠ "No solar data available for this location" := by
  exact ⟨by decide, by decide⟩

/-- Claim C2 as amended: when all three tiers fail with "not found", the
BASE iteration's `else` branch throws `Solar API error: <BASE's message>`,
the BASE-tier catch rethrows it, and that is the failure the endpoint
reports; the line-142 message "No solar data available for this location"
is not produced (the BASE iteration always returns or throws, so the loop
never falls through to it). -/
theorem insights_all_not_found_propagates_base_error (lat lng : Option ℚ)
    (env : Tier → TierResult)
    (h1 : jsFalsy lat = false) (h2 : jsFalsy lng = false)
    (stH stM stB : Nat) (mH mM mB pH pM pB : String)
    (hH : env Tier.HIGH = TierResult.response false stH (some mH) pH)
    (hHm : strIncludes mH "not found" = true)
    (hM : env Tier.MEDIUM = TierResult.response false stM (some mM) pM)
    (hMm : strIncludes mM "not found" = true)
    (hB : env Tier.BASE = TierResult.response false stB (some mB) pB)
    (hBm : strIncludes mB "not found" = true) :
    buildingInsights lat lng env
      = (.failure ("Solar API error: " ++ mB),
         [Tier.HIGH, Tier.MEDIUM, Tier.BASE]) := by
  have hne : mB ≠ "" := by
    intro h
    rw [h] at hBm
    exact absurd hBm (by decide)
  have sH : insightsCatch Tier.HIGH (insightsTry Tier.HIGH (env Tier.HIGH))
      = StepOut.next := by
    rw [hH]; simp [insightsTry, notFoundError, hHm, insightsCatch]
  have sM : insightsCatch Tier.MEDIUM (insightsTry Tier.MEDIUM (env Tier.MEDIUM))
      = StepOut.next := by
    rw [hM]; simp [insightsTry, notFoundError, hMm, insightsCatch]
  have sB : insightsCatch Tier.BASE (insightsTry Tier.BASE (env Tier.BASE))
      = StepOut.thrown ("Solar API error: " ++ mB) := by
    rw [hB]; simp [insightsTry, notFoundError, hBm, insightsCatch, msgOrStatus, hne]
  have hloop : insightsLoop env [Tier.HIGH, Tier.MEDIUM, Tier.BASE]
      = ([Tier.HIGH, Tier.MEDIUM, Tier.BASE],
         Except.error ("Solar API error: " ++ mB)) := by
    rw [insightsLoop_cons_next env Tier.HIGH [Tier.MEDIUM, Tier.BASE] sH,
        insightsLoop_cons_next env Tier.MEDIUM [Tier.BASE] sM,
        insightsLoop_cons_thrown env Tier.BASE [] _ sB]
  simp [buildingInsights, h1, h2, hloop]

/-- Witness for `insights_all_not_found_propagates_base_error` at a
concrete all-"not found" environment. -/
theorem insights_all_not_found_witness :
    buildingInsights (some 2) (some 103)
      (fun _ => TierResult.response false 404 (some "building not found here") "z")
      = (.failure ("Solar API error: " ++ "building not found here"),
         [Tier.HIGH, Tier.MEDIUM, Tier.BASE]) :=
  insights_all_not_found_propagates_base_error (some 2) (some 103) _
    (by decide) (by decide) 404 404 404
    "building not found here" "building not found here" "building not found here"
    "z" "z" "z" rfl (by decide) rfl (by decide) rfl (by decide)

/-- Claim C5, counterexample: an RGB-layer request on a raster with one
channel does not fail with any error — the code falls to the single-band
path (lines 314-353) and returns a single-band decoded layer. -/
theorem rgb_low_channels_returns_single_band_cex :
    processGeotiff "rgb" [0] 1 1 1 "tiff"
      = GeoResult.singleBand "rgb" 1 1 0 255 0 [0] := by
  decide

/-- Claim C5 as amended: with layer kind RGB and channel count below 3 the
decode does not fail; it silently falls through to the single-band
extraction and returns a SingleBand layer over the same buffer. -/
theorem rgb_low_channels_falls_through (buf : List Nat) (c w h : Nat)
    (fmt : String) (hc : c < 3) :
    processGeotiff "rgb" buf c w h fmt
      = GeoResult.singleBand "rgb" w h
          (statsMin (singleBandValues buf c fmt))
          (statsMax (singleBandValues buf c fmt))
          (statsMean (singleBandValues buf c fmt))
          (singleBandValues buf c fmt) := by
  unfold processGeotiff
  rw [if_neg]
  intro hcontra
  exact absurd hcontra.2 (by omega)

/-- Witness for `rgb_low_channels_falls_through` on a concrete one-channel
buffer. -/
theorem rgb_low_channels_falls_through_witness :
    processGeotiff "rgb" [0, 255, 7] 1 1 3 "png"
      = GeoResult.singleBand "rgb" 1 3 7 7 7 [0, 255, 7] := by
  have hmean : statsMean (singleBandValues [0, 255, 7] 1 "png") = 7 := by
    have hV : singleBandValues [0, 255, 7] 1 "png" = [0, 255, 7] := by decide
    rw [hV]
    norm_num [statsMean, validValues]
  rw [rgb_low_channels_falls_through [0, 255, 7] 1 1 3 "png" (by omega), hmean]
  decide

/-- Claim C6: RGB decode with channel count c ≥ 3 over an N-pixel buffer
(`buf.length = N * c`) yields red/green/blue arrays of length N whose entry
j is the buffer byte at offset j*c, j*c+1, j*c+2 respectively — stride =
channel count, row-major order preserved. -/
theorem rgb_decode_stride_correct (buf : List Nat) (c w h N : Nat)
    (fmt : String) (hc : 3 ≤ c) (hlen : buf.length = N * c) :
    processGeotiff "rgb" buf c w h fmt
      = GeoResult.rgb w h (rgbChannel buf c 0) (rgbChannel buf c 1)
          (rgbChannel buf c 2) ∧
    (rgbChannel buf c 0).length = N ∧
    (rgbChannel buf c 1).length = N ∧
    (rgbChannel buf c 2).length = N ∧
    ∀ j, j < N →
      (rgbChannel buf c 0)[j]? = some (some (buf.getD (j * c) 0)) ∧
      (rgbChannel buf c 1)[j]? = some (some (buf.getD (j * c + 1) 0)) ∧
      (rgbChannel buf c 2)[j]? = some (some (buf.getD (j * c + 2) 0)) := by
  have hc0 : 0 < c := by omega
  refine ⟨?_, rgbChannel_length buf c 0 N hc0 hlen,
    rgbChannel_length buf c 1 N hc0 hlen,
    rgbChannel_length buf c 2 N hc0 hlen, ?_⟩
  · unfold processGeotiff
    rw [if_pos ⟨rfl, hc⟩]
  · intro j hj
    refine ⟨?_, rgbChannel_getElem buf c 1 N j hc0 hlen (by omega) hj,
      rgbChannel_getElem buf c 2 N j hc0 hlen (by omega) hj⟩
    have h0 := rgbChannel_getElem buf c 0 N j hc0 hlen (by omega) hj
    simpa using h0

/-- Witness for `rgb_decode_stride_correct` on a concrete 2-pixel RGBA
buffer. -/
theorem rgb_decode_stride_correct_witness :
    processGeotiff "rgb" [1, 2, 3, 4, 5, 6, 7, 8] 4 2 1 "tiff"
      = GeoResult.rgb 2 1 (rgbChannel [1, 2, 3, 4, 5, 6, 7, 8] 4 0)
          (rgbChannel [1, 2, 3, 4, 5, 6, 7, 8] 4 1)
          (rgbChannel [1, 2, 3, 4, 5, 6, 7, 8] 4 2) ∧
    (rgbChannel [1, 2, 3, 4, 5, 6, 7, 8] 4 0).length = 2 ∧
    (rgbChannel [1, 2, 3, 4, 5, 6, 7, 8] 4 0)[1]? = some (some 5) := by
  have h := rgb_decode_stride_correct [1, 2, 3, 4, 5, 6, 7, 8] 4 2 1 2 "tiff"
    (by omega) (by decide)
  refine ⟨h.1, h.2.1, ?_⟩
  have h1 := (h.2.2.2.2 1 (by omega)).1
  simpa using h1

/-- Claim C7: statistics are computed over the values with the sentinels 0
and 255 removed — min/max are the minimum/maximum of that filtered subset
and the mean times its size is its sum — with defaults min = 0, max = 255,
mean = 0 on an empty filtered subset; including the spec's two concrete
examples. -/
theorem single_band_stats_filtered (values : List Nat) :
    (validValues values = [] →
      statsMin values = 0 ∧ statsMax values = 255 ∧ statsMean values = 0) ∧
    (validValues values ≠ [] →
      statsMin values ∈ validValues values ∧
      (∀ x ∈ validValues values, statsMin values ≤ x) ∧
      statsMax values ∈ validValues values ∧
      (∀ x ∈ validValues values, x ≤ statsMax values) ∧
      statsMean values * ((validValues values).length : ℚ)
        = (((validValues values).foldl (· + ·) 0 : Nat) : ℚ)) ∧
    statsMin [0, 10, 20, 255, 30] = 10 ∧ statsMax [0, 10, 20, 255, 30] = 30 ∧
    statsMean [0, 10, 20, 255, 30] = 20 ∧
    statsMin [0, 255, 0, 255] = 0 ∧ statsMax [0, 255, 0, 255] = 255 ∧
    statsMean [0, 255, 0, 255] = 0 := by
  refine ⟨?_, ?_, by decide, by decide, by norm_num [statsMean, validValues],
    by decide, by decide, by norm_num [statsMean, validValues]⟩
  · intro h
    exact ⟨by simp [statsMin, h], by simp [statsMax, h], by simp [statsMean, h]⟩
  · intro h
    rcases hvv : validValues values with _ | ⟨v, vs⟩
    · exact absurd hvv h
    · have hminval : statsMin values = vs.foldl Nat.min v := by simp [statsMin, hvv]
      have hmaxval : statsMax values = vs.foldl Nat.max v := by simp [statsMax, hvv]
      refine ⟨?_, ?_, ?_, ?_, ?_⟩
      · rw [hminval]
        exact foldl_min_mem vs v
      · intro x hx
        rw [hminval]
        exact foldl_min_le vs v x hx
      · rw [hmaxval]
        exact foldl_max_mem vs v
      · intro x hx
        rw [hmaxval]
        exact foldl_max_ge vs v x hx
      · have hlen : (((v :: vs).length : Nat) : ℚ) ≠ 0 :=
          Nat.cast_ne_zero.mpr (by simp)
        have hmean : statsMean values
            = ((((v :: vs).foldl (· + ·) 0 : Nat)) : ℚ)
              / (((v :: vs).length : Nat) : ℚ) := by
          simp only [statsMean, hvv]
          rw [if_neg (by simp)]
        rw [hmean, div_mul_cancel₀ _ hlen]

/-- Witness for `single_band_stats_filtered`, discharging both inner
hypotheses at concrete inputs. -/
theorem single_band_stats_filtered_witness :
    statsMin [0, 12, 40, 255] ∈ validValues [0, 12, 40, 255] ∧
    statsMean [255, 0] = 0 :=
  ⟨((single_band_stats_filtered [0, 12, 40, 255]).2.1 (by decide)).1,
   ((single_band_stats_filtered [255, 0]).1 (by decide)).2.2⟩

/-- Claim C8: every single-band decode returns the raw sampled values
unfiltered — entry j is the sampled buffer byte (at stride = channel count
for the tiff source format, contiguously otherwise), sentinels 0 and 255
included; the filter touches only the statistics fields. -/
theorem single_band_values_unfiltered (layer : String) (buf : List Nat)
    (c w h : Nat) (fmt : String)
    (hl : ¬(layer = "rgb" ∧ 3 ≤ c)) (hc : 0 < c) :
    processGeotiff layer buf c w h fmt
      = GeoResult.singleBand layer w h
          (statsMin (singleBandValues buf c fmt))
          (statsMax (singleBandValues buf c fmt))
          (statsMean (singleBandValues buf c fmt))
          (singleBandValues buf c fmt) ∧
    (fmt = "tiff" →
      (singleBandValues buf c fmt).length = strideCount buf.length c ∧
      ∀ j, j < strideCount buf.length c →
        (singleBandValues buf c fmt)[j]? = some (buf.getD (j * c) 0)) ∧
    (fmt ≠ "tiff" → singleBandValues buf c fmt = buf) := by
  refine ⟨?_, ?_, ?_⟩
  · unfold processGeotiff
    rw [if_neg hl]
  · intro hfmt
    subst hfmt
    constructor
    · simp [singleBandValues, strideIndices_length]
    · intro j hj
      have hidx := strideIndices_getElem buf.length c j hj
      rw [show singleBandValues buf c "tiff"
            = (strideIndices buf.length c).map (fun i => buf.getD i 0) from rfl,
          List.getElem?_map, hidx]
      simp [Nat.mul_comm c j]
  · intro hfmt
    simp [singleBandValues, hfmt]

/-- Witness for `single_band_values_unfiltered`: stride-2 sampling keeps the
sentinel bytes 0 and 255 in the returned values while the statistics fall
back to their defaults. -/
theorem single_band_values_unfiltered_witness :
    processGeotiff "mask" [0, 9, 255, 30] 2 2 1 "tiff"
      = GeoResult.singleBand "mask" 2 1 0 255 0 [0, 255] ∧
    (singleBandValues [0, 9, 255, 30] 2 "tiff")[0]? = some 0 ∧
    (singleBandValues [0, 9, 255, 30] 2 "tiff")[1]? = some 255 := by
  have h := single_band_values_unfiltered "mask" [0, 9, 255, 30] 2 2 1 "tiff"
    (by decide) (by decide)
  refine ⟨?_, ?_, ?_⟩
  · rw [h.1]
    decide
  · have h0 := (h.2.1 rfl).2 0 (by decide)
    simpa using h0
  · have h1 := (h.2.1 rfl).2 1 (by decide)
    simpa using h1
